import Mathlib

/-!
Shallow embedding of `src/winrtble/ble/device.rs` from btleplug's WinRT
backend: the `BLEDevice` connection-lifecycle and GATT service-discovery
module. Platform (WinRT) calls are modelled as explicit outcome values
supplied by an environment; each Rust method becomes a pure Lean function
of the device state and that environment.
-/

deriving instance DecidableEq for Except

namespace BtlePlug

/-- A `windows::core::Error`, carried as its diagnostic string
(the code only ever formats it with `{:?}`). -/
structure WinError where
  msg : String
deriving DecidableEq, Repr

/-- Result of a single WinRT platform call. -/
abbrev WinResult (α : Type) := Except WinError α

/-- `GattCommunicationStatus` (WinRT): outcome status of a GATT operation. -/
inductive GattCommunicationStatus
  | success
  | unreachable
  | protocolError
  | accessDenied
deriving DecidableEq, Repr

/-- `BluetoothConnectionStatus` (WinRT). -/
inductive BluetoothConnectionStatus
  | disconnected
  | connected
deriving DecidableEq, Repr

/-- `BluetoothCacheMode` (WinRT): cached vs. live enumeration. -/
inductive BluetoothCacheMode
  | cached
  | uncached
deriving DecidableEq, Repr

/-- Error kinds of `btleplug::Error` used by this module. -/
inductive Error
  | deviceNotFound
  | other (msg : String)
deriving DecidableEq, Repr

/-- Opaque `GattDeviceService` handle. -/
structure GattDeviceService where
  id : Nat
deriving DecidableEq, Repr

/-- Opaque `GattCharacteristic` handle. -/
structure GattCharacteristic where
  id : Nat
deriving DecidableEq, Repr

/-- Opaque `GattDescriptor` handle. -/
structure GattDescriptor where
  id : Nat
deriving DecidableEq, Repr

/-- Outcome of a WinRT async call pattern `X(...)?.await?`: creating the
async operation may fail, awaiting it may fail, or it yields a value. -/
inductive AsyncOutcome (α : Type)
  | callErr (e : WinError)
  | awaitErr (e : WinError)
  | ok (a : α)
deriving DecidableEq, Repr

/-- A `GattDeviceServicesResult`: its `Status()` and `Services()` getters
are each fallible platform calls. -/
structure GattDeviceServicesResult where
  Status : WinResult GattCommunicationStatus
  Services : WinResult (List GattDeviceService)
deriving DecidableEq, Repr

/-- A `GattCharacteristicsResult`: fallible `Status()` and
`Characteristics()` getters. -/
structure GattCharacteristicsResult where
  Status : WinResult GattCommunicationStatus
  Characteristics : WinResult (List GattCharacteristic)
deriving DecidableEq, Repr

/-- A `GattDescriptorsResult`: fallible `Status()` and `Descriptors()`
getters. -/
structure GattDescriptorsResult where
  Status : WinResult GattCommunicationStatus
  Descriptors : WinResult (List GattDescriptor)
deriving DecidableEq, Repr

/-- The closure `let winrt_error = |e| Error::Other(format!("{:?}", e).into())`
used by `get_gatt_services`, `is_connected` and `discover_services`. -/
def winrt_error (e : WinError) : Error := .other e.msg

/-- Modelled from the spec: the `From<windows::core::Error> for Error`
conversion applied by the `?` operator (it lives outside this module's
source). Per §7, a platform call failure becomes `Other`, carrying the
underlying diagnostic string. -/
def fromWinError (e : WinError) : Error := .other e.msg

/-- Modelled from the spec: `utils::to_error` (in `winrtble/utils.rs`, not
among the provided sources) translates a `GattCommunicationStatus` into a
`Result<()>`: per §4.2 and §7, `Ok(())` iff the status is Success, and each
non-Success status is surfaced as the corresponding error kind. -/
def to_error (status : GattCommunicationStatus) : Except Error Unit :=
  match status with
  | .success => .ok ()
  | .unreachable => .error (.other "Unreachable")
  | .protocolError => .error (.other "ProtocolError")
  | .accessDenied => .error (.other "AccessDenied")

namespace BLEDevice

/-- `BLEDevice::get_gatt_services`: runs
`device.GetGattServicesWithCacheModeAsync(cache_mode)?.await?`, mapping
either failure through `winrt_error`. The `platform` function gives the
platform's response to the enumeration for each cache mode. -/
def get_gatt_services
    (platform : BluetoothCacheMode → AsyncOutcome GattDeviceServicesResult)
    (cache_mode : BluetoothCacheMode) :
    Except Error GattDeviceServicesResult :=
  match platform cache_mode with
  | .callErr e => .error (winrt_error e)
  | .awaitErr e => .error (winrt_error e)
  | .ok service_result => .ok service_result

/-- `BLEDevice::discover_services`: cached-mode enumeration. Takes the
current `self.services` cache; returns the Rust result together with the
new cache contents. On Success status the cache is replaced with the
enumerated services and returned; otherwise the old cache is returned. -/
def discover_services (services : List GattDeviceService)
    (platform : BluetoothCacheMode → AsyncOutcome GattDeviceServicesResult) :
    Except Error (List GattDeviceService) × List GattDeviceService :=
  match get_gatt_services platform .cached with
  | .error e => (.error e, services)
  | .ok service_result =>
    match service_result.Status with
    | .error e => (.error (winrt_error e), services)
    | .ok status =>
      if status = .success then
        match service_result.Services with
        | .error e => (.error (winrt_error e), services)
        | .ok new_services => (.ok new_services, new_services)
      else
        (.ok services, services)

/-- `BLEDevice::get_characteristics`: uncached enumeration of a service's
characteristics, with the three-way status match of the source. -/
def get_characteristics (env : AsyncOutcome GattCharacteristicsResult) :
    Except Error (List GattCharacteristic) :=
  match env with
  | .callErr e => .error (fromWinError e)
  | .awaitErr e => .error (fromWinError e)
  | .ok async_result =>
    match async_result.Status with
    | .ok .success =>
      match async_result.Characteristics with
      | .error e => .error (fromWinError e)
      | .ok results => .ok results
    | .ok .protocolError =>
      .error (.other "get_characteristics encountered a protocol error")
    | .ok _ => .ok []
    | .error e => .error (.other ("get_characteristics failed: " ++ e.msg))

/-- `BLEDevice::get_characteristic_descriptors`: uncached enumeration of a
characteristic's descriptors; only a Success status yields the list. -/
def get_characteristic_descriptors (env : AsyncOutcome GattDescriptorsResult) :
    Except Error (List GattDescriptor) :=
  match env with
  | .callErr e => .error (fromWinError e)
  | .awaitErr e => .error (fromWinError e)
  | .ok async_result =>
    if async_result.Status = .ok .success then
      match async_result.Descriptors with
      | .error e => .error (fromWinError e)
      | .ok results => .ok results
    else
      .error (.other "get_characteristic_descriptors failed")

/-- Environment of platform responses for one call to `connect` /
`is_connected`: the device's `ConnectionStatus()` query and the device's
response to `GetGattServicesWithCacheModeAsync` per cache mode. -/
structure DeviceEnv where
  ConnectionStatus : WinResult BluetoothConnectionStatus
  GetGattServices : BluetoothCacheMode → AsyncOutcome GattDeviceServicesResult

/-- `BLEDevice::is_connected`: queries `device.ConnectionStatus()`, mapping
a query failure through `winrt_error`; reports whether the status equals
`Connected`. -/
def is_connected (env : DeviceEnv) : Except Error Bool :=
  match env.ConnectionStatus with
  | .error e => .error (winrt_error e)
  | .ok status => .ok (status = BluetoothConnectionStatus.connected)

/-- `BLEDevice::connect`. Takes `&self` (it cannot mutate the device, in
particular the service cache is untouched). The second component records
whether the uncached service enumeration was performed. A failure of the
`Status()` getter on the enumeration result is mapped to `DeviceNotFound`
(line 109 of the source); the status itself is fed to `utils::to_error`. -/
def connect (env : DeviceEnv) : Except Error Unit × Bool :=
  match is_connected env with
  | .error e => (.error e, false)
  | .ok true => (.ok (), false)
  | .ok false =>
    match get_gatt_services env.GetGattServices .uncached with
    | .error e => (.error e, true)
    | .ok service_result =>
      match service_result.Status with
      | .error _ => (.error .deviceNotFound, true)
      | .ok status => (to_error status, true)

/-- The `BLEDevice` aggregate as constructed: the service cache starts
empty (handles and tokens are opaque and carry no further state here). -/
structure State where
  services : List GattDeviceService
deriving DecidableEq, Repr

/-- Outcome of running a Rust function that may also panic (`unwrap`). -/
inductive RustOutcome (α : Type)
  | ok (a : α)
  | err (e : Error)
  | panics
deriving DecidableEq, Repr

/-- Observable events during `BLEDevice::new`, in program order: handler
registrations and synchronous invocations of the consumer callbacks. -/
inductive NewEvent
  | registerConnectionStatus
  | invokeMaxPdu (v : Nat)
  | registerMaxPdu
deriving DecidableEq, Repr

/-- Environment of platform responses for one call to `BLEDevice::new`,
one field per platform call, in the order the source makes them. -/
structure NewEnv where
  fromBluetoothAddressAsync : WinResult Unit
  awaitDevice : WinResult Unit
  bluetoothDeviceId : WinResult Unit
  fromDeviceIdAsync : WinResult Unit
  awaitSession : WinResult Unit
  connectionStatusChanged : WinResult Unit
  maxPduSize : WinResult Nat
  maxPduSizeChanged : WinResult Unit
deriving DecidableEq, Repr

/-- `BLEDevice::new`: address resolution, session establishment, handler
wiring and the synchronous initial `max_pdu_size_changed` invocation
(line 69 of the source, via `MaxPduSize().unwrap()`), together with the
trace of registrations and callback invocations performed. -/
def new (env : NewEnv) : RustOutcome State × List NewEvent :=
  match env.fromBluetoothAddressAsync with
  | .error _ => (.err .deviceNotFound, [])
  | .ok _ =>
  match env.awaitDevice with
  | .error _ => (.err .deviceNotFound, [])
  | .ok _ =>
  match env.bluetoothDeviceId with
  | .error e => (.err (fromWinError e), [])
  | .ok _ =>
  match env.fromDeviceIdAsync with
  | .error _ => (.err .deviceNotFound, [])
  | .ok _ =>
  match env.awaitSession with
  | .error _ => (.err .deviceNotFound, [])
  | .ok _ =>
  match env.connectionStatusChanged with
  | .error _ => (.err (.other "Could not add connection status handler"), [])
  | .ok _ =>
  match env.maxPduSize with
  | .error _ => (.panics, [.registerConnectionStatus])
  | .ok v =>
  match env.maxPduSizeChanged with
  | .error _ =>
    (.err (.other "Could not add max pdu size changed handler"),
     [.registerConnectionStatus, .invokeMaxPdu v])
  | .ok _ =>
    (.ok { services := [] },
     [.registerConnectionStatus, .invokeMaxPdu v, .registerMaxPdu])

/-- The connection-status `TypedEventHandler` built in `BLEDevice::new`:
given the sender (`None`, or `Some` device whose `ConnectionStatus()`
query has the given outcome), returns the list of values passed to the
`connection_status_changed` callback. The source computes
`sender.ConnectionStatus().ok().map_or(false, |v| v == Connected)`. -/
def connection_status_handler
    (sender : Option (WinResult BluetoothConnectionStatus)) : List Bool :=
  match sender with
  | none => []
  | some q =>
    [(Except.toOption q).elim false
      (fun v => v = BluetoothConnectionStatus.connected)]

/-- The max-PDU-size `TypedEventHandler` built in `BLEDevice::new`: given
the sender (`None`, or `Some` session whose `MaxPduSize()` query has the
given outcome), returns the values passed to `max_pdu_size_changed`, or
panics — the source calls `sender.MaxPduSize().unwrap()`. -/
def max_pdu_size_changed_handler (sender : Option (WinResult Nat)) :
    RustOutcome (List Nat) :=
  match sender with
  | none => .ok []
  | some (.ok v) => .ok [v]
  | some (.error _) => .panics

/-- One step of `Drop for BLEDevice`. -/
inductive DropStep
  | removeMaxPdu
  | removeConnectionStatus
  | closeService (s : GattDeviceService)
  | closeDevice
deriving DecidableEq, Repr

/-- Platform responses for the four teardown calls of `Drop`. -/
structure DropEnv where
  removeMaxPduSizeChanged : WinResult Unit
  removeConnectionStatusChanged : WinResult Unit
  closeService : GattDeviceService → WinResult Unit
  closeDevice : WinResult Unit

/-- `Drop for BLEDevice`: performs every teardown step in program order,
recording each step with the platform's answer to it. A failing step is
only logged (`debug!`); nothing is propagated, so the function is total
and every step always appears. -/
def drop (services : List GattDeviceService) (env : DropEnv) :
    List (DropStep × WinResult Unit) :=
  (DropStep.removeMaxPdu, env.removeMaxPduSizeChanged)
    :: (DropStep.removeConnectionStatus, env.removeConnectionStatusChanged)
    :: (services.map (fun s => (DropStep.closeService s, env.closeService s))
        ++ [(DropStep.closeDevice, env.closeDevice)])

/-- Whether a `Result<()>` is an `Error::Other` failure. -/
def isOtherError : Except Error Unit → Bool
  | .error (.other _) => true
  | _ => false

/-- Whether a platform call succeeded. -/
def isOkB {α : Type} : WinResult α → Bool
  | .ok _ => true
  | .error _ => false

/-- Every platform call made by `BLEDevice::new` succeeded. -/
def NewEnv.allOk (env : NewEnv) : Bool :=
  isOkB env.fromBluetoothAddressAsync && isOkB env.awaitDevice
    && isOkB env.bluetoothDeviceId && isOkB env.fromDeviceIdAsync
    && isOkB env.awaitSession && isOkB env.connectionStatusChanged
    && isOkB env.maxPduSize && isOkB env.maxPduSizeChanged

/-- Whether a construction event is an invocation of the
`max_pdu_size_changed` callback (with any value). -/
def NewEvent.isInvokeMaxPdu : NewEvent → Bool
  | .invokeMaxPdu _ => true
  | _ => false

/-- Concrete platform responses for the C1 witness: cached enumeration
succeeds with service handle 5. -/
def platformW1 : BluetoothCacheMode → AsyncOutcome GattDeviceServicesResult :=
  fun _ => .ok { Status := .ok .success, Services := .ok [⟨5⟩] }

/-- Concrete environment for the C4 counterexample: device disconnected,
uncached enumeration yields a result whose `Status()` getter fails. -/
def envX4 : DeviceEnv :=
  { ConnectionStatus := .ok .disconnected
    GetGattServices := fun _ =>
      .ok { Status := .error ⟨"status query failed"⟩, Services := .ok [] } }

/-- Concrete environment for the C4 witness: device disconnected, uncached
enumeration succeeds with Success status. -/
def envW4 : DeviceEnv :=
  { ConnectionStatus := .ok .disconnected
    GetGattServices := fun _ =>
      .ok { Status := .ok .success, Services := .ok [] } }

/-- Concrete environment for the C5 witness: device already connected. -/
def envW5 : DeviceEnv :=
  { ConnectionStatus := .ok .connected
    GetGattServices := fun _ => .callErr ⟨"must not be called"⟩ }

/-- Concrete environment for the C6 witness: address resolution fails. -/
def envW6 : NewEnv :=
  { fromBluetoothAddressAsync := .error ⟨"resolve failed"⟩
    awaitDevice := .ok (), bluetoothDeviceId := .ok ()
    fromDeviceIdAsync := .ok (), awaitSession := .ok ()
    connectionStatusChanged := .ok (), maxPduSize := .ok 23
    maxPduSizeChanged := .ok () }

/-- Concrete environment for C7: every platform call of construction
succeeds and the session's current max PDU size is 247. -/
def envX7 : NewEnv :=
  { fromBluetoothAddressAsync := .ok (), awaitDevice := .ok ()
    bluetoothDeviceId := .ok (), fromDeviceIdAsync := .ok ()
    awaitSession := .ok (), connectionStatusChanged := .ok ()
    maxPduSize := .ok 247, maxPduSizeChanged := .ok () }

/-- Concrete environment for the C9 witness: construction proceeds until
the `MaxPduSize()` query, which fails. -/
def envW9 : NewEnv :=
  { fromBluetoothAddressAsync := .ok (), awaitDevice := .ok ()
    bluetoothDeviceId := .ok (), fromDeviceIdAsync := .ok ()
    awaitSession := .ok (), connectionStatusChanged := .ok ()
    maxPduSize := .error ⟨"MaxPduSize failed"⟩, maxPduSizeChanged := .ok () }

end BLEDevice

namespace BLEDevice

/-- C1: `discover_services` with Success status fully replaces the cached
service sequence with the newly enumerated services (in enumeration order)
and returns the refreshed cache; with any non-Success status it leaves the
previous cache untouched and returns that same sequence. -/
theorem discover_services_cache_policy
    (services : List GattDeviceService)
    (platform : BluetoothCacheMode → AsyncOutcome GattDeviceServicesResult)
    (r : GattDeviceServicesResult)
    (hr : platform .cached = .ok r) :
    (∀ new_services, r.Status = .ok .success → r.Services = .ok new_services →
      discover_services services platform = (.ok new_services, new_services))
  ∧ (∀ s, r.Status = .ok s → s ≠ .success →
      discover_services services platform = (.ok services, services)) := by
  constructor
  · intro new_services hs hv
    simp [discover_services, get_gatt_services, hr, hs, hv]
  · intro s hs hne
    simp [discover_services, get_gatt_services, hr, hs, hne]

/-- Witness for C1 at a concrete cache and platform response. -/
theorem discover_services_cache_policy_witness :
    discover_services [⟨1⟩, ⟨2⟩] platformW1 = (.ok [⟨5⟩], [⟨5⟩]) :=
  (discover_services_cache_policy [⟨1⟩, ⟨2⟩] platformW1
    { Status := .ok .success, Services := .ok [⟨5⟩] } rfl).1 [⟨5⟩] rfl rfl

/-- C2: `get_characteristics` returns the enumerated list on Success, an
`Other` error on ProtocolError, an empty successful list on every other
non-Success status, and an `Other` error when the status query fails. -/
theorem get_characteristics_status_policy (r : GattCharacteristicsResult) :
    (∀ cs, r.Status = .ok .success → r.Characteristics = .ok cs →
      get_characteristics (.ok r) = .ok cs)
  ∧ (r.Status = .ok .protocolError →
      ∃ m, get_characteristics (.ok r) = .error (.other m))
  ∧ (∀ s, r.Status = .ok s → s ≠ .success → s ≠ .protocolError →
      get_characteristics (.ok r) = .ok [])
  ∧ (∀ e, r.Status = .error e →
      ∃ m, get_characteristics (.ok r) = .error (.other m)) := by
  refine ⟨?_, ?_, ?_, ?_⟩
  · intro cs hs hc
    simp [get_characteristics, hs, hc]
  · intro hs
    exact ⟨"get_characteristics encountered a protocol error",
      by simp [get_characteristics, hs]⟩
  · intro s hs h1 h2
    cases s <;> simp_all [get_characteristics]
  · intro e hs
    exact ⟨"get_characteristics failed: " ++ e.msg,
      by simp [get_characteristics, hs]⟩

/-- Witness for C2 at a concrete enumeration result. -/
theorem get_characteristics_status_policy_witness :
    get_characteristics
      (.ok { Status := .ok .success, Characteristics := .ok [⟨7⟩] }) =
      .ok [⟨7⟩] :=
  (get_characteristics_status_policy
    { Status := .ok .success, Characteristics := .ok [⟨7⟩] }).1 [⟨7⟩] rfl rfl

/-- C3: `get_characteristic_descriptors` returns the enumerated list only
on Success; every non-Success status and every platform-call failure is an
`Other` error, and a successful return implies the status was Success (no
empty-list leniency). -/
theorem get_characteristic_descriptors_status_policy
    (env : AsyncOutcome GattDescriptorsResult) :
    (∀ r ds, env = .ok r → r.Status = .ok .success → r.Descriptors = .ok ds →
      get_characteristic_descriptors env = .ok ds)
  ∧ (∀ r, env = .ok r → r.Status ≠ .ok .success →
      ∃ m, get_characteristic_descriptors env = .error (.other m))
  ∧ (∀ e, env = .callErr e ∨ env = .awaitErr e →
      ∃ m, get_characteristic_descriptors env = .error (.other m))
  ∧ (∀ ds, get_characteristic_descriptors env = .ok ds →
      ∃ r, env = .ok r ∧ r.Status = .ok .success) := by
  refine ⟨?_, ?_, ?_, ?_⟩
  · intro r ds henv hs hd
    subst henv
    simp [get_characteristic_descriptors, hs, hd]
  · intro r henv hs
    subst henv
    exact ⟨"get_characteristic_descriptors failed",
      by simp [get_characteristic_descriptors, hs]⟩
  · intro e henv
    rcases henv with h | h <;> subst h <;>
      exact ⟨e.msg, by simp [get_characteristic_descriptors, fromWinError]⟩
  · intro ds hds
    cases env with
    | callErr e => simp [get_characteristic_descriptors, fromWinError] at hds
    | awaitErr e => simp [get_characteristic_descriptors, fromWinError] at hds
    | ok r =>
      refine ⟨r, rfl, ?_⟩
      by_cases hs : r.Status = .ok .success
      · exact hs
      · simp [get_characteristic_descriptors, hs] at hds

/-- Witness for C3 at a concrete enumeration result. -/
theorem get_characteristic_descriptors_status_policy_witness :
    get_characteristic_descriptors
      (.ok { Status := .ok .success, Descriptors := .ok [⟨3⟩] }) = .ok [⟨3⟩] :=
  (get_characteristic_descriptors_status_policy
    (.ok { Status := .ok .success, Descriptors := .ok [⟨3⟩] })).1
    { Status := .ok .success, Descriptors := .ok [⟨3⟩] } [⟨3⟩] rfl rfl rfl

/-- C4 counterexample: with the device disconnected and an uncached
enumeration whose `Status()` getter fails, `connect` returns
`DeviceNotFound`, not an `Other` error — refuting the claim that a failure
of the status query surfaces as `Other`. -/
theorem connect_status_query_counterexample :
    (connect envX4).1 = .error .deviceNotFound
  ∧ isOtherError (connect envX4).1 = false := by
  exact ⟨rfl, rfl⟩

/-- C4 (amended): for a device that is not already connected, `connect`
returns `Ok(())` iff the uncached enumeration's status is Success; a
non-Success status is translated through `to_error`; a platform failure of
the enumeration call itself surfaces as `Other` with the diagnostic; but a
failure querying the result's status surfaces as `DeviceNotFound`. -/
theorem connect_status_translation (env : DeviceEnv)
    (hd : env.ConnectionStatus = .ok .disconnected) :
    (∀ e, env.GetGattServices .uncached = .callErr e →
      (connect env).1 = .error (.other e.msg))
  ∧ (∀ e, env.GetGattServices .uncached = .awaitErr e →
      (connect env).1 = .error (.other e.msg))
  ∧ (∀ r s, env.GetGattServices .uncached = .ok r → r.Status = .ok s →
      (connect env).1 = to_error s
        ∧ ((connect env).1 = .ok () ↔ s = .success))
  ∧ (∀ r e, env.GetGattServices .uncached = .ok r → r.Status = .error e →
      (connect env).1 = .error .deviceNotFound) := by
  refine ⟨?_, ?_, ?_, ?_⟩
  · intro e he
    simp [connect, is_connected, get_gatt_services, winrt_error, hd, he]
  · intro e he
    simp [connect, is_connected, get_gatt_services, winrt_error, hd, he]
  · intro r s hr hs
    constructor
    · simp [connect, is_connected, get_gatt_services, hd, hr, hs]
    · simp only [connect, is_connected, get_gatt_services, hd, hr, hs]
      cases s <;> simp [to_error]
  · intro r e hr hs
    simp [connect, is_connected, get_gatt_services, hd, hr, hs]

/-- Witness for the amended C4: disconnected device, Success status. -/
theorem connect_status_translation_witness :
    (connect envW4).1 = .ok () :=
  ((connect_status_translation envW4 rfl).2.2.1
    { Status := .ok .success, Services := .ok [] } .success rfl rfl).2.mpr rfl

/-- C5: `connect` on a device whose `is_connected` query reports true
returns `Ok(())` and performs no service-enumeration call (the enumeration
flag is `false`, whatever the platform would have answered); `connect`
takes `&self`, so the device state is unchanged. -/
theorem connect_idempotent_when_connected (env : DeviceEnv)
    (h : env.ConnectionStatus = .ok .connected) :
    connect env = (.ok (), false) := by
  simp [connect, is_connected, h]

/-- Witness for C5 at a connected device. -/
theorem connect_idempotent_when_connected_witness :
    connect envW5 = (.ok (), false) :=
  connect_idempotent_when_connected envW5 rfl

/-- C6: `new` fails with `DeviceNotFound` when address resolution fails,
and likewise when session establishment fails after resolution succeeded;
and any construction-time failure aborts creation entirely — a device is
returned only when every platform call of the constructor succeeded. -/
theorem new_construction_failure (env : NewEnv) :
    ((isOkB env.fromBluetoothAddressAsync = false
        ∨ isOkB env.awaitDevice = false) →
      (new env).1 = .err .deviceNotFound)
  ∧ (isOkB env.fromBluetoothAddressAsync = true →
      isOkB env.awaitDevice = true →
      isOkB env.bluetoothDeviceId = true →
      (isOkB env.fromDeviceIdAsync = false ∨ isOkB env.awaitSession = false) →
      (new env).1 = .err .deviceNotFound)
  ∧ (∀ d, (new env).1 = .ok d → NewEnv.allOk env = true) := by
  obtain ⟨f1, f2, f3, f4, f5, f6, f7, f8⟩ := env
  cases f1 <;> cases f2 <;> cases f3 <;> cases f4 <;> cases f5 <;>
    cases f6 <;> cases f7 <;> cases f8 <;>
    simp [new, isOkB, NewEnv.allOk]

/-- Witness for C6: resolution fails, construction is `DeviceNotFound`. -/
theorem new_construction_failure_witness :
    (new envW6).1 = .err .deviceNotFound :=
  (new_construction_failure envW6).1 (Or.inl rfl)

/-- C7 counterexample: on a fully successful construction with current max
PDU size 247, the trace shows the initial `max_pdu_size_changed` invocation
strictly before the registration of the max-PDU-size subscription —
refuting the claim that the invocation occurs immediately after the
subscription is registered. -/
theorem new_initial_pdu_callback_counterexample :
    (new envX7).2 = [NewEvent.registerConnectionStatus,
      NewEvent.invokeMaxPdu 247, NewEvent.registerMaxPdu]
  ∧ List.indexOf (NewEvent.invokeMaxPdu 247) (new envX7).2 <
      List.indexOf NewEvent.registerMaxPdu (new envX7).2 := by
  exact ⟨rfl, by decide⟩

/-- C7 (amended): whenever construction reaches the max-PDU-size wiring,
the `on_max_pdu_changed` callback is invoked synchronously exactly once,
with the session's current value, immediately BEFORE the subscription is
registered — hence before any live notification, which can only be
delivered through the subscription once it exists. -/
theorem new_initial_pdu_callback (env : NewEnv) (v : Nat)
    (h1 : env.fromBluetoothAddressAsync = .ok ())
    (h2 : env.awaitDevice = .ok ())
    (h3 : env.bluetoothDeviceId = .ok ())
    (h4 : env.fromDeviceIdAsync = .ok ())
    (h5 : env.awaitSession = .ok ())
    (h6 : env.connectionStatusChanged = .ok ())
    (h7 : env.maxPduSize = .ok v)
    (h8 : env.maxPduSizeChanged = .ok ()) :
    (new env).2 = [NewEvent.registerConnectionStatus,
      NewEvent.invokeMaxPdu v, NewEvent.registerMaxPdu]
  ∧ List.countP NewEvent.isInvokeMaxPdu (new env).2 = 1 := by
  constructor
  · simp [new, h1, h2, h3, h4, h5, h6, h7, h8]
  · simp [new, h1, h2, h3, h4, h5, h6, h7, h8, List.countP,
      List.countP.go, NewEvent.isInvokeMaxPdu]

/-- Witness for the amended C7 at the successful construction. -/
theorem new_initial_pdu_callback_witness :
    (new envX7).2 = [NewEvent.registerConnectionStatus,
      NewEvent.invokeMaxPdu 247, NewEvent.registerMaxPdu] :=
  (new_initial_pdu_callback envX7 247 rfl rfl rfl rfl rfl rfl rfl rfl).1

/-- C8: disposal executes exactly the four teardown phases in the fixed
order — unsubscribe max-PDU-size, unsubscribe connection-status, close
every cached service, close the device — whatever each platform call
answers: the step sequence is the same for any two environments, and no
failure escapes (`drop` is total and returns the full step list). -/
theorem drop_fixed_steps (services : List GattDeviceService)
    (env env' : DropEnv) :
    (drop services env).map Prod.fst =
      DropStep.removeMaxPdu :: DropStep.removeConnectionStatus ::
        (services.map DropStep.closeService ++ [DropStep.closeDevice])
  ∧ (drop services env).map Prod.fst = (drop services env').map Prod.fst := by
  constructor <;> simp [drop]

/-- C9: the `MaxPduSize()` result is unwrapped with no error path: if the
query fails during construction (all earlier steps having succeeded), `new`
panics rather than returning an error, and the event handler likewise
panics when the query fails inside it. -/
theorem max_pdu_unwrap_panics (env : NewEnv) (e : WinError)
    (h1 : env.fromBluetoothAddressAsync = .ok ())
    (h2 : env.awaitDevice = .ok ())
    (h3 : env.bluetoothDeviceId = .ok ())
    (h4 : env.fromDeviceIdAsync = .ok ())
    (h5 : env.awaitSession = .ok ())
    (h6 : env.connectionStatusChanged = .ok ())
    (h7 : env.maxPduSize = .error e) :
    (new env).1 = .panics
  ∧ max_pdu_size_changed_handler (some (.error e)) = .panics := by
  constructor
  · simp [new, h1, h2, h3, h4, h5, h6, h7]
  · rfl

/-- Witness for C9 at a construction whose `MaxPduSize()` query fails. -/
theorem max_pdu_unwrap_panics_witness :
    (new envW9).1 = .panics :=
  (max_pdu_unwrap_panics envW9 ⟨"MaxPduSize failed"⟩
    rfl rfl rfl rfl rfl rfl rfl).1

/-- C10: when the connection-status query fails at the platform level, the
connection-status handler still invokes the callback with `false`, exactly
as it does for a successful query reporting Disconnected. -/
theorem connection_status_query_failure_reports_false (e : WinError) :
    connection_status_handler (some (.error e)) = [false]
  ∧ connection_status_handler (some (.ok .disconnected)) = [false] := by
  exact ⟨rfl, rfl⟩

end BLEDevice

end BtlePlug
